import Mathlib

/-!
Verification of the sails-mongo 0.12 adapter core (connection registry,
config normalizer, collection facade policy, join callbacks) against its
natural-language specification.  The definitions below are a shallow
embedding of `lib/adapter.js` and of the connection module
(`extractQueryFromUri` / `buildConnectionString` / `_buildConnection`):
JavaScript objects become association lists of `JsVal`, callbacks become
explicit result values, the external MongoDB driver becomes an explicit
store state (its behaviour is taken from the boundary description of the
spec, since the driver itself is not part of the repository), and a
synchronously thrown exception becomes an explicit `thrown` outcome.
-/

namespace SailsMongo

/-- Model of the JavaScript values that occur in adapter configurations. -/
inductive JsVal where
  | vStr (s : String)
  | vNum (n : Int)
  | vBool (b : Bool)
  | vNull
  | vObj (fields : List (String × JsVal))

open JsVal

/-- A JavaScript object, as an insertion-ordered association list.
A key that is absent models a property whose value is `undefined`. -/
abbrev JsObj := List (String × JsVal)

/-- Property read: first binding of the key wins (later duplicates are
shadowed, as in a JS object literal built left to right). -/
def jsGet : JsObj → String → Option JsVal
  | [], _ => none
  | (k, v) :: rest, key => if k = key then some v else jsGet rest key

/-- JavaScript truthiness of a defined value. -/
def truthyV : JsVal → Bool
  | vStr s => !(s = "")
  | vNum n => !(n = 0)
  | vBool b => b
  | vNull => false
  | vObj _ => true

/-- JavaScript truthiness of a possibly-undefined value. -/
def truthy : Option JsVal → Bool
  | none => false
  | some v => truthyV v

/-- JavaScript string coercion of a defined value (as used by `+` on a
string), for the value shapes that occur in connection configs. -/
def jsToStr : JsVal → String
  | vStr s => s
  | vNum n => toString n
  | vBool b => if b then "true" else "false"
  | vNull => "null"
  | vObj _ => "[object Object]"

/-- JavaScript string coercion of a possibly-undefined value. -/
def jsCoerceStr : Option JsVal → String
  | none => "undefined"
  | some v => jsToStr v

/-- One step of lodash `_.defaults`: fold one source object into the
accumulated object, adding only the keys that are not yet present. -/
def lodashDefaultsAdd (dst : JsObj) (src : JsObj) : JsObj :=
  src.foldl (fun acc kv => if (jsGet acc kv.1).isSome then acc else acc ++ [kv]) dst

/-- lodash `_.defaults(dst, ...sources)`: sources are applied left to
right, a key already set is never overwritten; a nullish (here: absent,
`none`) source object is skipped. -/
def lodashDefaults (dst : JsObj) (srcs : List (Option JsObj)) : JsObj :=
  srcs.foldl (fun acc osrc =>
    match osrc with
    | none => acc
    | some src => lodashDefaultsAdd acc src) dst

/-- Model of `String.prototype.split` with a one-character separator,
on the character list of the string. -/
def splitCharAux (sep : Char) : List Char → List (List Char)
  | [] => [[]]
  | c :: cs =>
    let r := splitCharAux sep cs
    if c = sep then [] :: r
    else
      match r with
      | [] => [[c]]
      | p :: ps => (c :: p) :: ps

/-- `s.split(sep)` for a one-character separator. -/
def jsSplit (s : String) (sep : Char) : List String :=
  (splitCharAux sep s.data).map fun l => String.mk l

/-- Join a list of strings with a separator. -/
def joinWith (sep : String) : List String → String
  | [] => ""
  | [x] => x
  | x :: xs => x ++ sep ++ joinWith sep xs

/-- One `key=value` piece of a query string, as parsed by node
`querystring.parse`: the key is everything before the first `=`, the
value everything after it (values come back as strings). -/
def parseQueryPair (s : String) : String × JsVal :=
  match jsSplit s '=' with
  | [] => ("", vStr "")
  | [k] => (k, vStr "")
  | k :: rest => (k, vStr (joinWith "=" rest))

/-- node `querystring.parse` on the pieces that occur here (no percent
decoding, no duplicate-key arrays: neither occurs in the configs below). -/
def parseQueryString (s : String) : JsObj :=
  if s = "" then [] else (jsSplit s '&').map parseQueryPair

/-! ### Connection module (`lib/connection.js`)

Embedding of `extractQueryFromUri`, `buildConnectionString` and the
configuration-resolution part of `Connection.prototype._buildConnection`,
up to (but not including) the `MongoClient.connect` call. -/

/-- `extractQueryFromUri(uri)` from the connection module: returns
`undefined` (`none`) for a falsy argument, otherwise splits on `?` and
parses the second piece as a query string (an empty object when there is
no `?`).  Only string uris occur (any non-string truthy value would raise
in JS and never appears in a config). -/
def extractQueryFromUri (uri : Option JsVal) : Option JsObj :=
  if truthy uri = false then none
  else
    match uri with
    | some (JsVal.vStr s) =>
      let brokenUri := jsSplit s '?'
      if brokenUri.length > 1 then some (parseQueryString (brokenUri.getD 1 ""))
      else some []
    | _ => none

/-- Error message thrown by `buildConnectionString` when credentials are
configured without a database. -/
def databaseRequiredMsg : String :=
  "The MongoDB Adapter requires a database config option if authentication is used."

/-- The `host:port/` part of the synthesized connection string, with the
database appended when it is truthy (mirrors the two trailing appends of
`buildConnectionString`). -/
def hostPortDatabase (params : JsObj) : String :=
  jsCoerceStr (jsGet params "host") ++ ":" ++ jsCoerceStr (jsGet params "port") ++ "/" ++
    (if truthy (jsGet params "database") then jsCoerceStr (jsGet params "database") else "")

/-- `buildConnectionString(params)` from the connection module.  The
`Except` error is the synchronously thrown `Error` (credentials without a
database); otherwise the string is `mongodb://` + optional
`user:password@` (only when both are truthy) + `host:port/` + optional
database. -/
def buildConnectionString (params : JsObj) : Except String String :=
  if truthy (jsGet params "user") && truthy (jsGet params "password") then
    if truthy (jsGet params "database") = false then
      Except.error databaseRequiredMsg
    else
      Except.ok ("mongodb://" ++ jsCoerceStr (jsGet params "user") ++ ":" ++
        jsCoerceStr (jsGet params "password") ++ "@" ++ hostPortDatabase params)
  else
    Except.ok ("mongodb://" ++ hostPortDatabase params)

/-- The `availableConfiguration` computed at the start of
`_buildConnection`: query parameters are extracted (from `this.config.uri`
-- note that the source reads `uri` while the guard tests `url`) only when
`this.config.url` is truthy, and then
`_.defaults({}, queryParams, this.config, {useNewUrlParser: true})`
is taken, in which a nullish `queryParams` source is skipped. -/
def resolveAvailableConfiguration (config : JsObj) : JsObj :=
  let queryParams : Option JsObj :=
    if truthy (jsGet config "url") then extractQueryFromUri (jsGet config "uri")
    else some []
  lodashDefaults [] [queryParams, some config, some [("useNewUrlParser", JsVal.vBool true)]]

/-- Connection options handed to `MongoClient.connect`.  A value of
`none` models a property that was assigned `undefined` (copied from an
absent key of the configuration). -/
abbrev ConnOptions := List (String × Option JsVal)

/-- The `connectionOptions` object built by `_buildConnection`: legacy
pool/retry options unless `useUnifiedTopology` is truthy, plus a verbatim
`authSource` pass-through when the merged configuration has that key. -/
def buildConnectionOptions (avail : JsObj) : ConnOptions :=
  (if truthy (jsGet avail "useUnifiedTopology") = false then
    [("readPreference", jsGet avail "readPreference"),
     ("autoReconnect", jsGet avail "auto_reconnect"),
     ("reconnectInterval", jsGet avail "reconnectInterval"),
     ("reconnectTries", jsGet avail "reconnectTries")]
  else
    [("useUnifiedTopology", some (JsVal.vBool true))]) ++
  (match jsGet avail "authSource" with
   | some v => [("authSource", some v)]
   | none => [])

/-- The arguments of the `MongoClient.connect` call that ends
`_buildConnection`. -/
structure ConnectPlan where
  connectionString : String
  connectionOptions : ConnOptions

/-- `_buildConnection` up to the `MongoClient.connect` call: resolve the
merged configuration, build the options, and either take the configured
`url` verbatim as connection string or synthesize one with
`buildConnectionString` (which can throw synchronously).  The deletions
of the folded-in fields (`url`, `user`, `password`, `database`, `host`,
`port`) from `availableConfiguration` are unobservable here because that
object is not used again afterwards except for the `authSource` check,
which none of the deleted keys affect. -/
def buildConnectionPlan (config : JsObj) : Except String ConnectPlan :=
  let avail := resolveAvailableConfiguration config
  let opts := buildConnectionOptions avail
  if truthy (jsGet avail "url") then
    Except.ok ⟨jsCoerceStr (jsGet avail "url"), opts⟩
  else
    match buildConnectionString avail with
    | Except.error e => Except.error e
    | Except.ok s => Except.ok ⟨s, opts⟩

/-! ### Registry data model (`lib/adapter.js`) -/

/-- Generic string-keyed property read on an insertion-ordered object. -/
def assocGet {α : Type} : List (String × α) → String → Option α
  | [], _ => none
  | (k, v) :: rest, key => if k = key then some v else assocGet rest key

/-- JS property delete on an insertion-ordered object. -/
def assocRemove {α : Type} : List (String × α) → String → List (String × α)
  | [], _ => []
  | (k, w) :: rest, key =>
    if k = key then assocRemove rest key else (k, w) :: assocRemove rest key

/-- JS property assignment: overwrite in place if present, else append. -/
def assocSet {α : Type} : List (String × α) → String → α → List (String × α)
  | [], key, v => [(key, v)]
  | (k, w) :: rest, key, v =>
    if k = key then (k, v) :: rest else (k, w) :: assocSet rest key v

/-- The adapter `defaults` object (every built-in connection default of
`lib/adapter.js`). -/
def adapterDefaults : JsObj :=
  [("host", vStr "localhost"),
   ("database", vStr "sails"),
   ("port", vNum 27017),
   ("readOnly", vBool false),
   ("user", vNull),
   ("password", vNull),
   ("schema", vBool false),
   ("url", vNull),
   ("w", vNum 1),
   ("wtimeout", vNum 0),
   ("fsync", vBool false),
   ("journal", vBool false),
   ("readPreference", vNull),
   ("nativeParser", vBool false),
   ("forceServerObjectId", vBool false),
   ("recordQueryStats", vBool false),
   ("retryMiliSeconds", vNum 5000),
   ("numberOfRetries", vNum 5),
   ("ssl", vBool false),
   ("poolSize", vNum 50),
   ("auto_reconnect", vBool true),
   ("reconnectTries", vNum 30),
   ("reconnectInterval", vNum 1000),
   ("wlNext", vObj [("caseSensitive", vBool false)])]

/-- A waterline collection definition, as handed to `registerConnection`.
Modelled from the spec: `lib/collection.js` is not among the sources, so
the shape the Collection facade extracts from a definition is taken from
the data model of the spec (declared schema, primary-key field, declared
index list). -/
structure CollectionSpec where
  schema : JsObj
  pkField : String
  indexes : List String

/-- A registered Collection facade instance.
Modelled from the spec: `lib/collection.js` is not among the sources; per
the spec the facade is a per-collection wrapper holding the collection
name, its statically declared schema, its primary-key field (returned by
`_getPK`) and its declared indexes, and it translates its verbs directly
into store-native calls on the connection it was built from. -/
structure CollectionEntry where
  name : String
  schema : JsObj
  pkField : String
  indexes : List String

/-- Modelled from the spec: the Collection constructor
(`new Collection(definition, db)`, `lib/collection.js` missing) keeps the
definition data under the registered name. -/
def mkCollection (definition : CollectionSpec) (name : String) : CollectionEntry :=
  ⟨name, definition.schema, definition.pkField, definition.indexes⟩

/-- A `Connection` instance (`lib/connection.js`): its constructor stores
the config and, after a successful open, the `MongoClient` handle in
`client`.  No `db` property is ever assigned by this class, so reading it
yields `undefined` (`none`). -/
structure ConnObj where
  config : JsObj
  client : Nat
  db : Option Nat

/-- One entry of the process-wide `connections` registry:
`{config, collections}` at creation, with the `connection` property set
only after a successful open. -/
structure ConnEntry where
  config : JsObj
  collections : List (String × CollectionEntry)
  connection : Option ConnObj

/-- The process-wide registry `connections`, keyed by identity. -/
abbrev Registry := List (String × ConnEntry)

/-- The registration-time errors surfaced through the callback. -/
inductive RegError where
  | identityMissing
  | identityDuplicate
  | connectFailed (original : String)
  | noDbObject

/-- Outcome of a `registerConnection` call: a synchronously thrown
exception, a callback with an error, or a successful callback. -/
inductive RegResult where
  | thrown (msg : String)
  | cbErr (e : RegError)
  | ok

/-- `registerConnection(connection, collections, cb)` of the adapter,
parametric in the external driver `connect` (which may fail, or call back
with a nullish client: `Except.ok none` models `cb(null, null)`).
Faithful order of the source: identity check, duplicate check, defaults
merge, insertion of the partial `{config, collections: {}}` entry, then
`new Connection(...)`, whose `_buildConnection` may throw synchronously;
on a successful open the entry is completed with the `Connection` object
and the built collection facades (logging is external to the spec and has
no control-flow effect). -/
def registerConnection (connect : String → ConnOptions → Except String (Option Nat))
    (st : Registry) (connection : JsObj)
    (collections : List (String × CollectionSpec)) : Registry × RegResult :=
  if truthy (jsGet connection "identity") = false then
    (st, RegResult.cbErr RegError.identityMissing)
  else
    let key := jsCoerceStr (jsGet connection "identity")
    if (assocGet st key).isSome then (st, RegResult.cbErr RegError.identityDuplicate)
    else
      let merged := lodashDefaultsAdd connection adapterDefaults
      let st1 := st ++ [(key, ⟨merged, [], none⟩)]
      match buildConnectionPlan merged with
      | Except.error msg => (st1, RegResult.thrown msg)
      | Except.ok plan =>
        match connect plan.connectionString plan.connectionOptions with
        | Except.error e => (st1, RegResult.cbErr (RegError.connectFailed e))
        | Except.ok none => (st1, RegResult.cbErr RegError.noDbObject)
        | Except.ok (some client) =>
          let connObj : ConnObj := ⟨merged, client, none⟩
          let entry : ConnEntry :=
            ⟨merged, collections.map (fun kv => (kv.1, mkCollection kv.2 kv.1)), some connObj⟩
          (assocSet st1 key entry, RegResult.ok)

/-! ### Store model (external MongoDB driver boundary)

The driver is not part of the repository; per the spec its primitives are
reliable point operations.  The store is a set of named collections with
documents and indexes, plus the set of currently open client handles; the
only injectable fault is on `dropCollection`, whose error cases the
adapter inspects. -/

/-- Documents are abstract (their shape never matters to the adapter). -/
abbrev Doc := Nat

/-- A store-level error as the adapter observes it (`err.errmsg`). -/
structure MErr where
  errmsg : String
deriving DecidableEq

/-- The data the store holds for one collection. -/
structure CollData where
  docs : List Doc
  indexes : List String
deriving DecidableEq

/-- The external MongoDB store: named collections, open client handles,
and an injectable `dropCollection` failure for exercising the error
branches of `drop`. -/
structure MongoStore where
  colls : List (String × CollData)
  openClients : List Nat
  dropFault : Option MErr
deriving DecidableEq

/-- Store insert (`collection.insert` target): creates the collection on
first insert and appends the documents, returning the inserted documents
(reliable per the spec boundary). -/
def storeInsert (s : MongoStore) (name : String) (ds : List Doc) : MongoStore × List Doc :=
  match assocGet s.colls name with
  | none => ({ s with colls := s.colls ++ [(name, ⟨ds, []⟩)] }, ds)
  | some cd => ({ s with colls := assocSet s.colls name ⟨cd.docs ++ ds, cd.indexes⟩ }, ds)

/-- Store find: the documents of the collection matching the filter. -/
def storeFind (s : MongoStore) (name : String) (filter : Doc → Bool) : List Doc :=
  match assocGet s.colls name with
  | none => []
  | some cd => cd.docs.filter filter

/-- Store update: replaces each matching document with `values`,
returning the list of written documents. -/
def storeUpdate (s : MongoStore) (name : String) (filter : Doc → Bool) (values : Doc) :
    MongoStore × List Doc :=
  match assocGet s.colls name with
  | none => (s, [])
  | some cd =>
    let cd' : CollData := ⟨cd.docs.map (fun d => if filter d then values else d), cd.indexes⟩
    ({ s with colls := assocSet s.colls name cd' },
     (cd.docs.filter filter).map fun _ => values)

/-- Store delete: removes every matching document. -/
def storeRemove (s : MongoStore) (name : String) (filter : Doc → Bool) : MongoStore :=
  match assocGet s.colls name with
  | none => s
  | some cd =>
    { s with colls := assocSet s.colls name ⟨cd.docs.filter (fun d => !(filter d)), cd.indexes⟩ }

/-- Store `dropCollection`: the injected fault if one is set; otherwise
dropping an absent collection reports the mongo `ns not found` error and
dropping a present one removes it. -/
def storeDropCollection (s : MongoStore) (name : String) : MongoStore × Option MErr :=
  match s.dropFault with
  | some e => (s, some e)
  | none =>
    match assocGet s.colls name with
    | none => (s, some ⟨"ns not found"⟩)
    | some _ => ({ s with colls := assocRemove s.colls name }, none)

/-- Store `createCollection`: idempotently ensures the collection exists. -/
def storeCreateCollection (s : MongoStore) (name : String) : MongoStore :=
  match assocGet s.colls name with
  | none => { s with colls := s.colls ++ [(name, ⟨[], []⟩)] }
  | some _ => s

/-- Store `createIndex`, idempotent per the spec (creating an existing
equivalent index is a no-op); `_ensureIndexes` folds it over the declared
index list. -/
def storeEnsureIndexes (s : MongoStore) (name : String) (idxs : List String) : MongoStore :=
  match assocGet s.colls name with
  | none => s
  | some cd =>
    let cd' : CollData :=
      ⟨cd.docs, idxs.foldl (fun acc i => if acc.contains i then acc else acc ++ [i]) cd.indexes⟩
    { s with colls := assocSet s.colls name cd' }

/-- `db.listCollections(name)` as the adapter uses it in `describe`:
the store reports the (possibly empty) list of collections matching the
name. -/
def storeListCollections (s : MongoStore) (name : String) : List String :=
  (s.colls.filter (fun kv => kv.1 = name)).map fun kv => kv.1

/-- `client.close()`: the handle stops being open. -/
def storeClose (s : MongoStore) (h : Nat) : MongoStore :=
  { s with openClients := s.openClients.filter fun c => !(c = h) }

/-! ### Adapter verbs (`lib/adapter.js`) -/

/-- The adapter-level state: the `connections` registry plus the external
store the live handles point at. -/
structure AdapterState where
  connections : Registry
  store : MongoStore

/-- Values an adapter verb can hand to its callback. -/
inductive CbVal where
  | doc (d : Doc)
  | docs (ds : List Doc)
  | schemaOf (s : JsObj)

/-- Outcome of an adapter verb: a successful callback (`ok none` models
`cb()` / `cb(null, undefined)`), a callback with an error, or a
synchronously thrown exception (e.g. a property read on `undefined`). -/
inductive CbOut where
  | ok (v : Option CbVal)
  | err (e : MErr)
  | thrown (msg : String)

/-- Message standing for the `TypeError` raised by a JS property read on
`undefined` (an unregistered connection or collection). -/
def jsTypeErrorMsg : String := "TypeError: cannot read a property of undefined"

/-- Modelled from the spec: `lib/collection.js` is missing, and per the
spec the Collection facade translates `insert` directly into the
store-native insert, returning the array of inserted documents (store
point operations are assumed reliable). -/
def collectionInsert (store : MongoStore) (coll : CollectionEntry) (data : List Doc) :
    MongoStore × List Doc :=
  storeInsert store coll.name data

/-- Modelled from the spec: the Collection facade `find` translates into
the store-native find. -/
def collectionFind (store : MongoStore) (coll : CollectionEntry) (filter : Doc → Bool) :
    List Doc :=
  storeFind store coll.name filter

/-- Modelled from the spec: the Collection facade `update` translates
into the store-native update, returning the written documents. -/
def collectionUpdate (store : MongoStore) (coll : CollectionEntry) (filter : Doc → Bool)
    (values : Doc) : MongoStore × List Doc :=
  storeUpdate store coll.name filter values

/-- Modelled from the spec: the Collection facade `destroy` translates
into the store-native delete. -/
def collectionDestroy (store : MongoStore) (coll : CollectionEntry) (filter : Doc → Bool) :
    MongoStore :=
  storeRemove store coll.name filter

/-- Whether the connection entry is flagged read-only: the adapter reads
`connectionObject.connection.config.readOnly` (throwing when the
`connection` property is absent). -/
def connReadOnly (conn : ConnObj) : Bool :=
  truthy (jsGet conn.config "readOnly")

/-- `create(connectionName, collectionName, data, cb)`: a silent `cb()`
on a read-only connection, otherwise a collection insert answering
`cb(null, results[0])`. -/
def create (st : AdapterState) (connectionName collectionName : String) (data : Doc) :
    AdapterState × CbOut :=
  match assocGet st.connections connectionName with
  | none => (st, CbOut.thrown jsTypeErrorMsg)
  | some connectionObject =>
    match connectionObject.connection with
    | none => (st, CbOut.thrown jsTypeErrorMsg)
    | some conn =>
      if connReadOnly conn then (st, CbOut.ok none)
      else
        match assocGet connectionObject.collections collectionName with
        | none => (st, CbOut.thrown jsTypeErrorMsg)
        | some collection =>
          let (store', results) := collectionInsert st.store collection [data]
          ({ st with store := store' },
           CbOut.ok (match results with
                     | [] => none
                     | r :: _ => some (CbVal.doc r)))

/-- `createEach(connectionName, collectionName, data, cb)`: answers
`cb(null, [])` for an empty array, otherwise inserts the documents and
answers `cb(null, results)` -- the source has no read-only check here and
never reads the `connection` property. -/
def createEach (st : AdapterState) (connectionName collectionName : String)
    (data : List Doc) : AdapterState × CbOut :=
  if data.length = 0 then (st, CbOut.ok (some (CbVal.docs [])))
  else
    match assocGet st.connections connectionName with
    | none => (st, CbOut.thrown jsTypeErrorMsg)
    | some connectionObject =>
      match assocGet connectionObject.collections collectionName with
      | none => (st, CbOut.thrown jsTypeErrorMsg)
      | some collection =>
        let (store', results) := collectionInsert st.store collection data
        ({ st with store := store' }, CbOut.ok (some (CbVal.docs results)))

/-- `update(connectionName, collectionName, options, values, cb)`:
silent `cb()` on a read-only connection, otherwise a collection update
answering `cb(null, results)`. -/
def update (st : AdapterState) (connectionName collectionName : String)
    (filter : Doc → Bool) (values : Doc) : AdapterState × CbOut :=
  match assocGet st.connections connectionName with
  | none => (st, CbOut.thrown jsTypeErrorMsg)
  | some connectionObject =>
    match connectionObject.connection with
    | none => (st, CbOut.thrown jsTypeErrorMsg)
    | some conn =>
      if connReadOnly conn then (st, CbOut.ok none)
      else
        match assocGet connectionObject.collections collectionName with
        | none => (st, CbOut.thrown jsTypeErrorMsg)
        | some collection =>
          let (store', results) := collectionUpdate st.store collection filter values
          ({ st with store := store' }, CbOut.ok (some (CbVal.docs results)))

/-- `destroy(connectionName, collectionName, options, cb)`: silent
`cb()` on a read-only connection, otherwise find-then-delete answering
`cb(null, foundRecords)`. -/
def destroy (st : AdapterState) (connectionName collectionName : String)
    (filter : Doc → Bool) : AdapterState × CbOut :=
  match assocGet st.connections connectionName with
  | none => (st, CbOut.thrown jsTypeErrorMsg)
  | some connectionObject =>
    match connectionObject.connection with
    | none => (st, CbOut.thrown jsTypeErrorMsg)
    | some conn =>
      if connReadOnly conn then (st, CbOut.ok none)
      else
        match assocGet connectionObject.collections collectionName with
        | none => (st, CbOut.thrown jsTypeErrorMsg)
        | some collection =>
          let results := collectionFind st.store collection filter
          let store' := collectionDestroy st.store collection filter
          ({ st with store := store' }, CbOut.ok (some (CbVal.docs results)))

/-- `define(connectionName, collectionName, definition, cb)`: silent
`cb()` on a read-only connection, otherwise
`connection.createCollection(name, collection, cb)`, which creates the
collection on the store and then ensures its declared indexes
(`_ensureIndexes` in `lib/connection.js`).  The `definition` argument is
accepted but, as in the source, never used. -/
def define (st : AdapterState) (connectionName collectionName : String)
    (definition : JsObj) : AdapterState × CbOut :=
  match assocGet st.connections connectionName with
  | none => (st, CbOut.thrown jsTypeErrorMsg)
  | some connectionObject =>
    match connectionObject.connection with
    | none => (st, CbOut.thrown jsTypeErrorMsg)
    | some conn =>
      if connReadOnly conn then (st, CbOut.ok none)
      else
        match assocGet connectionObject.collections collectionName with
        | none => (st, CbOut.thrown jsTypeErrorMsg)
        | some collection =>
          let store' := storeCreateCollection st.store collectionName
          let store'' := storeEnsureIndexes store' collectionName collection.indexes
          ({ st with store := store'' }, CbOut.ok none)

/-- `drop(connectionName, collectionName, relations, cb)`: silent `cb()`
on a read-only connection; otherwise the store drop runs and an
`ns not found` failure is answered as success, any other failure is
passed to the callback unchanged.  The looked-up collection variable of
the source is never used, so no collection registration is required. -/
def drop (st : AdapterState) (connectionName collectionName : String) :
    AdapterState × CbOut :=
  match assocGet st.connections connectionName with
  | none => (st, CbOut.thrown jsTypeErrorMsg)
  | some connectionObject =>
    match connectionObject.connection with
    | none => (st, CbOut.thrown jsTypeErrorMsg)
    | some conn =>
      if connReadOnly conn then (st, CbOut.ok none)
      else
        let (store', e) := storeDropCollection st.store collectionName
        match e with
        | some err =>
          if err.errmsg = "ns not found" then ({ st with store := store' }, CbOut.ok none)
          else ({ st with store := store' }, CbOut.err err)
        | none => ({ st with store := store' }, CbOut.ok none)

/-- `describe(connectionName, collectionName, cb)`: answers
`cb(null, schema)` when the store reports the collection present
(`listCollections(name)` nonempty), and a plain `cb()` when the store
reports it absent. -/
def describe (st : AdapterState) (connectionName collectionName : String) : CbOut :=
  match assocGet st.connections connectionName with
  | none => CbOut.thrown jsTypeErrorMsg
  | some connectionObject =>
    match assocGet connectionObject.collections collectionName with
    | none => CbOut.thrown jsTypeErrorMsg
    | some collection =>
      match connectionObject.connection with
      | none => CbOut.thrown jsTypeErrorMsg
      | some _ =>
        let names := storeListCollections st.store collectionName
        if names.length > 0 then CbOut.ok (some (CbVal.schemaOf collection.schema))
        else CbOut.ok none

/-- `teardown(conn, cb)`: with no identity (`none`), the source plucks
the `connection` property of every entry, then the `db` property of each
`Connection` object -- a property that class never assigns -- closes
every handle so obtained (skipping the `undefined` ones), and resets the
registry; with an identity, a missing entry answers plain `cb()` and a
present one has its `connection.client` closed and its entry deleted. -/
def teardown (st : AdapterState) (conn : Option String) : AdapterState × CbOut :=
  match conn with
  | none =>
    let cs := st.connections.map fun kv => kv.2.connection
    if cs.length = 0 then (st, CbOut.ok none)
    else
      let dbs := cs.map fun oc => oc.bind fun c => c.db
      if dbs.length = 0 then (st, CbOut.ok none)
      else
        let store' := dbs.foldl (fun s odb =>
          match odb with
          | none => s
          | some h => storeClose s h) st.store
        ({ connections := [], store := store' }, CbOut.ok none)
  | some c =>
    match assocGet st.connections c with
    | none => (st, CbOut.ok none)
    | some entry =>
      match entry.connection with
      | none => (st, CbOut.thrown jsTypeErrorMsg)
      | some co =>
        ({ connections := assocRemove st.connections c, store := storeClose st.store co.client },
         CbOut.ok none)

/-- Outcome of the join engine `$getPK` callback: a silent `return`
(`undefined`), a thrown consistency-violation `Error`, or the primary-key
field name. -/
inductive GetPKOut where
  | undef
  | thrownErr (msg : String)
  | ret (s : String)

/-- The `$getPK(collectionIdentity)` callback the adapter hands to the
join engine: a falsy identity returns `undefined`; an unregistered
connection or collection throws a consistency-violation `Error`; a
registered collection answers its `_getPK()` (modelled from the spec as
the primary-key field name, `lib/collection.js` being absent). -/
def joinGetPK (connections : Registry) (connectionName : String)
    (collectionIdentity : String) : GetPKOut :=
  if collectionIdentity = "" then GetPKOut.undef
  else
    match assocGet connections connectionName with
    | none =>
      GetPKOut.thrownErr
        ("Consistency violation in sails-mongo: Unrecognized datastore (i.e. connection): `" ++
          connectionName ++ "`.")
    | some connectionObject =>
      match assocGet connectionObject.collections collectionIdentity with
      | none =>
        GetPKOut.thrownErr
          ("Consistency violation in sails-mongo: Unrecognized collection: `" ++
            collectionIdentity ++ "` in datastore (i.e. connection): `" ++ connectionName ++ "`.")
      | some collection => GetPKOut.ret collection.pkField

/-- `mongo.objectId(id)`: parametric in the external `ObjectId`
constructor (which may throw: `Except.error`).  The result `Except` is
the caller-visible behaviour: `Except.ok` means no exception escapes, the
`Option` inside is `null`-or-value. -/
def objectId (ctor : JsVal → Except String String) (id : Option JsVal) :
    Except String (Option String) :=
  if truthy id = false then Except.ok none
  else
    match id with
    | some v =>
      match ctor v with
      | Except.ok o => Except.ok (some o)
      | Except.error _ => Except.ok none
    | none => Except.ok none

/-! ### Concrete inputs used by witnesses and counterexamples -/

/-- Whether the store currently has a collection of the given name. -/
def storeHasCollection (s : MongoStore) (name : String) : Bool :=
  (assocGet s.colls name).isSome

/-- A read-only connection config. -/
def roConfig : JsObj := [("identity", vStr "ro"), ("readOnly", vBool true)]

/-- The live `Connection` object of the read-only connection. -/
def roConn : ConnObj := ⟨roConfig, 1, none⟩

/-- A registered collection of the read-only connection. -/
def roUsers : CollectionEntry := ⟨"users", [("name", vStr "string")], "id", []⟩

/-- The registry entry of the read-only connection. -/
def roEntry : ConnEntry := ⟨roConfig, [("users", roUsers)], some roConn⟩

/-- Adapter state holding one read-only connection and an empty `users`
collection on the store. -/
def roState : AdapterState := ⟨[("ro", roEntry)], ⟨[("users", ⟨[], []⟩)], [1], none⟩⟩

/-- A minimal connection config carrying only an identity. -/
def c2Config : JsObj := [("identity", vStr "a")]

/-- A driver whose connect always fails. -/
def refusingConnect : String → ConnOptions → Except String (Option Nat) :=
  fun _ _ => Except.error "ECONNREFUSED"

/-- A driver whose connect always succeeds with client handle 7. -/
def okConnect : String → ConnOptions → Except String (Option Nat) :=
  fun _ _ => Except.ok (some 7)

/-- The connect plan produced for `c2Config` after the defaults merge. -/
def c2Plan : ConnectPlan :=
  ⟨"mongodb://localhost:27017/sails",
   [("readPreference", some vNull), ("autoReconnect", some (vBool true)),
    ("reconnectInterval", some (vNum 1000)), ("reconnectTries", some (vNum 30))]⟩

/-- A config with a URL whose query string sets `w=5`, next to the
discrete/built-in `w` value 1 (the shape the spec describes). -/
def c3ConfigUrlOnly : JsObj :=
  [("url", vStr "mongodb://localhost:27017/foo?w=5"), ("w", vNum 1)]

/-- The same config with an additional `uri` field, the key the source
actually reads when extracting query parameters. -/
def c3ConfigWithUri : JsObj :=
  [("uri", vStr "mongodb://localhost:27017/foo?w=5"),
   ("url", vStr "mongodb://localhost:27017/foo?w=5"), ("w", vNum 1)]

/-- Config of a connection used for the teardown scenario. -/
def c4Config : JsObj := [("identity", vStr "one")]

/-- A live `Connection` whose MongoClient handle is 3 (held, as always,
in `client`; the `db` property is never assigned). -/
def c4Conn : ConnObj := ⟨c4Config, 3, none⟩

/-- Registry entry of the teardown scenario. -/
def c4Entry : ConnEntry := ⟨c4Config, [], some c4Conn⟩

/-- Store of the teardown scenario: client handle 3 is open. -/
def c4Store : MongoStore := ⟨[], [3], none⟩

/-- Adapter state of the teardown scenario. -/
def c4State : AdapterState := ⟨[("one", c4Entry)], c4Store⟩

/-- Registered collection for the describe scenario. -/
def c5Coll : CollectionEntry := ⟨"users", [("name", vStr "string")], "id", []⟩

/-- Live connection for the describe scenario. -/
def c5Conn : ConnObj := ⟨[("identity", vStr "c")], 2, none⟩

/-- Registry entry for the describe scenario. -/
def c5Entry : ConnEntry := ⟨[("identity", vStr "c")], [("users", c5Coll)], some c5Conn⟩

/-- Adapter state for the describe scenario: the store has the `users`
collection. -/
def c5State : AdapterState := ⟨[("c", c5Entry)], ⟨[("users", ⟨[4], []⟩)], [2], none⟩⟩

/-- Discrete connection params with a user but no password. -/
def c6Params : JsObj :=
  [("user", vStr "u"), ("host", vStr "localhost"), ("port", vNum 27017), ("database", vStr "d")]

/-- A config that sets user and password but no database at all. -/
def c7Config : JsObj := [("identity", vStr "c"), ("user", vStr "u"), ("password", vStr "p")]

/-- A config that sets user and password and explicitly nullifies the
database. -/
def c7NullDbConfig : JsObj :=
  [("identity", vStr "c"), ("user", vStr "u"), ("password", vStr "p"), ("database", vNull)]

/-- Config of the non-read-only connection used for the drop scenario. -/
def c8Config : JsObj := [("identity", vStr "rw")]

/-- Live connection of the drop scenario. -/
def c8Conn : ConnObj := ⟨c8Config, 4, none⟩

/-- Registry entry of the drop scenario. -/
def c8Entry : ConnEntry := ⟨c8Config, [], some c8Conn⟩

/-- Adapter state of the drop scenario with an injected store failure
whose `errmsg` is not `ns not found`. -/
def c8FaultState : AdapterState := ⟨[("rw", c8Entry)], ⟨[("users", ⟨[], []⟩)], [4], some ⟨"boom"⟩⟩⟩

/-- Adapter state of the drop scenario with no injected failure and no
`users` collection on the store. -/
def c8AbsentState : AdapterState := ⟨[("rw", c8Entry)], ⟨[], [4], none⟩⟩

/-- Registered collection for the join `$getPK` scenario. -/
def c9Coll : CollectionEntry := ⟨"users", [], "id", []⟩

/-- Registry entry for the join `$getPK` scenario. -/
def c9Entry : ConnEntry :=
  ⟨[("identity", vStr "c")], [("users", c9Coll)], some ⟨[("identity", vStr "c")], 5, none⟩⟩

/-- Registry for the join `$getPK` scenario. -/
def c9Reg : Registry := [("c", c9Entry)]

/-- A sample external `ObjectId` constructor: accepts 24-character
strings, raises on everything else. -/
def sampleObjectIdCtor : JsVal → Except String String :=
  fun v =>
    match v with
    | vStr s => if s.length = 24 then Except.ok s else Except.error "invalid ObjectId"
    | _ => Except.error "invalid ObjectId"

/-! ### Helper lemmas about property lookup and the defaults merge -/

/-- Property lookup distributes over object concatenation, earlier
bindings winning. -/
theorem jsGet_append (l₁ l₂ : JsObj) (k : String) :
    jsGet (l₁ ++ l₂) k = (jsGet l₁ k).or (jsGet l₂ k) := by
  induction l₁ with
  | nil => rfl
  | cons kv rest ih =>
    obtain ⟨k', v⟩ := kv
    by_cases h : k' = k
    · simp [jsGet, h]
    · simp [jsGet, h, ih]

/-- Reading a key after one `_.defaults` step: the destination wins,
otherwise the source provides the value. -/
theorem jsGet_lodashDefaultsAdd (src : JsObj) (acc : JsObj) (k : String) :
    jsGet (lodashDefaultsAdd acc src) k = (jsGet acc k).or (jsGet src k) := by
  induction src generalizing acc with
  | nil =>
    cases h : jsGet acc k <;> simp [lodashDefaultsAdd, jsGet, h]
  | cons kv rest ih =>
    obtain ⟨k', v⟩ := kv
    have hstep : lodashDefaultsAdd acc ((k', v) :: rest) =
        lodashDefaultsAdd (if (jsGet acc k').isSome then acc else acc ++ [(k', v)]) rest := rfl
    rw [hstep, ih]
    by_cases hk : k' = k
    · subst hk
      cases hacc : jsGet acc k' with
      | some w => simp [hacc, jsGet]
      | none => simp [hacc, jsGet_append, jsGet]
    · cases hacc : jsGet acc k' with
      | some w => cases hrest : jsGet rest k <;> simp [hacc, jsGet, hk, hrest]
      | none => cases hrest : jsGet rest k <;> simp [hacc, jsGet_append, jsGet, hk, hrest]

/-- When the config has no truthy `url`, the merged
`availableConfiguration` agrees with the config on every key other than
the injected `useNewUrlParser`. -/
theorem jsGet_resolveAvailableConfiguration_noUrl (config : JsObj) (k : String)
    (hurl : truthy (jsGet config "url") = false) (hk : ¬(k = "useNewUrlParser")) :
    jsGet (resolveAvailableConfiguration config) k = jsGet config k := by
  unfold resolveAvailableConfiguration lodashDefaults
  cases h : jsGet config k <;>
    simp [hurl, jsGet_lodashDefaultsAdd, jsGet, hk, Ne.symm hk, h]

/-- With no truthy `url`, truthy credentials and a falsy database,
`_buildConnection` throws the database-required error before reaching the
driver connect call. -/
theorem buildConnectionPlan_database_error (config : JsObj)
    (hurl : truthy (jsGet config "url") = false)
    (hu : truthy (jsGet config "user") = true)
    (hp : truthy (jsGet config "password") = true)
    (hd : truthy (jsGet config "database") = false) :
    buildConnectionPlan config = Except.error databaseRequiredMsg := by
  have hu' := jsGet_resolveAvailableConfiguration_noUrl config "user" hurl (by decide)
  have hp' := jsGet_resolveAvailableConfiguration_noUrl config "password" hurl (by decide)
  have hd' := jsGet_resolveAvailableConfiguration_noUrl config "database" hurl (by decide)
  have hurl' := jsGet_resolveAvailableConfiguration_noUrl config "url" hurl (by decide)
  unfold buildConnectionPlan buildConnectionString
  simp [hurl', hu', hp', hd', hurl, hu, hp, hd]

/-- Filtering an association list by key yields a nonempty result exactly
when the key lookup succeeds. -/
theorem filter_names_pos_iff {β : Type} (l : List (String × β)) (name : String) :
    (0 < (l.filter fun kv => kv.1 = name).length) ↔
      (assocGet l name).isSome = true := by
  induction l with
  | nil => simp [assocGet]
  | cons kv rest ih =>
    obtain ⟨k, v⟩ := kv
    by_cases h : k = name <;> simp [assocGet, h, List.filter_cons, ih]

/-- The store reports a nonempty `listCollections(name)` exactly when it
has a collection of that name. -/
theorem storeListCollections_pos_iff (s : MongoStore) (name : String) :
    (0 < (storeListCollections s name).length) ↔ storeHasCollection s name = true := by
  unfold storeListCollections storeHasCollection
  rw [List.length_map]
  exact filter_names_pos_iff s.colls name

/-! ### Claim C1 -/

/-- C1 (counterexample): on the read-only connection `roState`,
`createEach` with a nonempty document list mutates the store (the `users`
collection gains the document) instead of being a silent no-op, so the
claim that every mutating verb -- `createEach` included -- performs no
store mutation on a read-only connection is false as stated. -/
theorem createEach_readOnly_counterexample :
    connReadOnly roConn = true ∧
    roState.store.colls = [("users", ⟨[], []⟩)] ∧
    (createEach roState "ro" "users" [7]).1.store.colls = [("users", ⟨[7], []⟩)] ∧
    (createEach roState "ro" "users" [7]).2 = CbOut.ok (some (CbVal.docs [7])) :=
  ⟨rfl, rfl, rfl, rfl⟩

/-- C1 (amended): on a connection flagged read-only, the mutating verbs
`create`, `update`, `destroy`, `define` and `drop` leave the adapter
state untouched and call back successfully with no result; `createEach`,
however, has no read-only guard and performs the store insert exactly as
on a writable connection. -/
theorem readOnly_mutating_verbs_amended
    (st : AdapterState) (cn coln : String) (co : ConnEntry) (conn : ConnObj)
    (filter : Doc → Bool) (values d : Doc) (data : List Doc) (defn : JsObj)
    (hco : assocGet st.connections cn = some co)
    (hconn : co.connection = some conn)
    (hro : connReadOnly conn = true) :
    create st cn coln d = (st, CbOut.ok none) ∧
    update st cn coln filter values = (st, CbOut.ok none) ∧
    destroy st cn coln filter = (st, CbOut.ok none) ∧
    define st cn coln defn = (st, CbOut.ok none) ∧
    drop st cn coln = (st, CbOut.ok none) ∧
    (∀ coll, ¬(data = []) → assocGet co.collections coln = some coll →
      createEach st cn coln data =
        ({ st with store := (storeInsert st.store coll.name data).1 },
         CbOut.ok (some (CbVal.docs (storeInsert st.store coll.name data).2)))) := by
  refine ⟨?_, ?_, ?_, ?_, ?_, ?_⟩
  · simp [create, hco, hconn, hro]
  · simp [update, hco, hconn, hro]
  · simp [destroy, hco, hconn, hro]
  · simp [define, hco, hconn, hro]
  · simp [drop, hco, hconn, hro]
  · intro coll hdata hcoll
    have hlen : ¬(data.length = 0) := by simpa [List.length_eq_zero] using hdata
    simp [createEach, hco, hcoll, hlen, collectionInsert]

/-- C1 (witness): the amended read-only policy evaluated on the concrete
read-only state `roState`. -/
theorem readOnly_mutating_verbs_amended_witness :
    assocGet roState.connections "ro" = some roEntry ∧
    roEntry.connection = some roConn ∧
    connReadOnly roConn = true ∧
    create roState "ro" "users" 5 = (roState, CbOut.ok none) ∧
    createEach roState "ro" "users" [7] =
      ({ roState with store := (storeInsert roState.store roUsers.name [7]).1 },
       CbOut.ok (some (CbVal.docs (storeInsert roState.store roUsers.name [7]).2))) := by
  have h := readOnly_mutating_verbs_amended roState "ro" "users" roEntry roConn
    (fun _ => true) 0 5 [7] [] rfl rfl rfl
  exact ⟨rfl, rfl, rfl, h.1, h.2.2.2.2.2 roUsers (by decide) rfl⟩

/-! ### Claim C2 -/

/-- C2 (counterexample): registering with a driver whose connect fails
leaves the registry with an entry for the identity `a` -- the partial
entry is inserted before the open is attempted and is not removed on
failure -- so the claim that a failed open leaves no entry for the
identity is false as stated. -/
theorem registerConnection_failure_leaves_entry_counterexample :
    (registerConnection refusingConnect [] c2Config []).2 =
      RegResult.cbErr (RegError.connectFailed "ECONNREFUSED") ∧
    (assocGet (registerConnection refusingConnect [] c2Config []).1 "a").isSome = true :=
  ⟨rfl, rfl⟩

/-- C2 (amended): `registerConnection` inserts a partial registry entry
(merged config, empty collection map, no live handle) for the identity
before attempting to open the connection; when the open fails, the call
errs with the wrapped connect failure but that partial entry remains in
the registry. -/
theorem registerConnection_partial_entry_amended
    (connect : String → ConnOptions → Except String (Option Nat))
    (st : Registry) (config : JsObj) (colls : List (String × CollectionSpec))
    (plan : ConnectPlan) (e : String)
    (hid : truthy (jsGet config "identity") = true)
    (hfresh : assocGet st (jsCoerceStr (jsGet config "identity")) = none)
    (hplan : buildConnectionPlan (lodashDefaultsAdd config adapterDefaults) = Except.ok plan)
    (hconn : connect plan.connectionString plan.connectionOptions = Except.error e) :
    registerConnection connect st config colls =
      (st ++ [(jsCoerceStr (jsGet config "identity"),
               ⟨lodashDefaultsAdd config adapterDefaults, [], none⟩)],
       RegResult.cbErr (RegError.connectFailed e)) := by
  unfold registerConnection
  simp [hid, hfresh, hplan, hconn]

/-- C2 (witness): the amended registration behaviour evaluated on the
concrete config `c2Config` with a refusing driver. -/
theorem registerConnection_partial_entry_amended_witness :
    truthy (jsGet c2Config "identity") = true ∧
    buildConnectionPlan (lodashDefaultsAdd c2Config adapterDefaults) = Except.ok c2Plan ∧
    refusingConnect c2Plan.connectionString c2Plan.connectionOptions =
      Except.error "ECONNREFUSED" ∧
    registerConnection refusingConnect [] c2Config [] =
      ([("a", ⟨lodashDefaultsAdd c2Config adapterDefaults, [], none⟩)],
       RegResult.cbErr (RegError.connectFailed "ECONNREFUSED")) :=
  ⟨rfl, rfl, rfl,
    registerConnection_partial_entry_amended refusingConnect [] c2Config [] c2Plan
      "ECONNREFUSED" rfl rfl rfl rfl⟩

/-! ### Claim C3 -/

/-- C3 (code bug): with a config whose `url` carries the query parameter
`w=5` next to the discrete/built-in value `w = 1` (the shape produced by
the adapter defaults merge), the resolved configuration keeps `w = 1`
untouched -- the source extracts query parameters from `config.uri`
although the URL lives in `config.url`, so they are never parsed; and
when a `uri` key is supplied so extraction does happen, the query value
overrides the discrete one, the reverse of the claimed
discrete-over-query precedence. -/
theorem url_query_params_never_merged :
    jsGet (resolveAvailableConfiguration c3ConfigUrlOnly) "w" = some (vNum 1) ∧
    jsGet c3ConfigUrlOnly "uri" = none ∧
    jsGet (resolveAvailableConfiguration c3ConfigWithUri) "w" = some (vStr "5") :=
  ⟨rfl, rfl, rfl⟩

/-! ### Claim C4 -/

/-- C4 (code bug): `teardown` with no identity on a registry holding one
connection whose open MongoClient handle is 3 clears the registry but
leaves handle 3 open: the source plucks the `db` property of each
`Connection` object, a property that class never assigns (the handle
lives in `client`), so no handle is ever closed; a second call on the
emptied registry still succeeds. -/
theorem teardown_all_leaves_handles_open :
    c4Entry.connection = some c4Conn ∧
    c4Conn.client = 3 ∧
    c4Store.openClients = [3] ∧
    teardown c4State none = ({ connections := [], store := c4Store }, CbOut.ok none) ∧
    teardown { connections := [], store := c4Store } none =
      ({ connections := [], store := c4Store }, CbOut.ok none) :=
  ⟨rfl, rfl, rfl, rfl, rfl⟩

/-! ### Claim C5 -/

/-- C5: for a registered collection on a registered connection,
`describe` calls back with the statically-held declared schema exactly
when the store reports the collection present, and with no result and no
error when the store reports it absent. -/
theorem describe_returns_schema_iff_store_reports_collection
    (st : AdapterState) (cn coln : String) (co : ConnEntry) (conn : ConnObj)
    (coll : CollectionEntry)
    (hco : assocGet st.connections cn = some co)
    (hcoll : assocGet co.collections coln = some coll)
    (hconn : co.connection = some conn) :
    describe st cn coln =
      (if storeHasCollection st.store coln
       then CbOut.ok (some (CbVal.schemaOf coll.schema))
       else CbOut.ok none) := by
  have hiff := storeListCollections_pos_iff st.store coln
  by_cases h : storeHasCollection st.store coln = true
  · have hpos : 0 < (storeListCollections st.store coln).length := hiff.mpr h
    simp [describe, hco, hcoll, hconn, h, hpos]
  · have hb : storeHasCollection st.store coln = false := by simpa using h
    have hneg : ¬(0 < (storeListCollections st.store coln).length) := by
      rw [hiff]; simp [hb]
    simp [describe, hco, hcoll, hconn, hb, hneg]

/-- C5 (witness): `describe` evaluated on the concrete state `c5State`,
whose store has the `users` collection. -/
theorem describe_returns_schema_iff_witness :
    assocGet c5State.connections "c" = some c5Entry ∧
    assocGet c5Entry.collections "users" = some c5Coll ∧
    c5Entry.connection = some c5Conn ∧
    storeHasCollection c5State.store "users" = true ∧
    describe c5State "c" "users" =
      (if storeHasCollection c5State.store "users"
       then CbOut.ok (some (CbVal.schemaOf c5Coll.schema))
       else CbOut.ok none) :=
  ⟨rfl, rfl, rfl, rfl,
    describe_returns_schema_iff_store_reports_collection c5State "c" "users"
      c5Entry c5Conn c5Coll rfl rfl rfl⟩

/-! ### Claim C6 -/

/-- C6 (counterexample): a params object with a user but no password --
exactly one credential present -- does not make `buildConnectionString`
fail with a validation error: it succeeds, silently omitting the
credential segment, so the claimed fail-fast behaviour is false as
stated. -/
theorem buildConnectionString_single_credential_counterexample :
    truthy (jsGet c6Params "user") = true ∧
    jsGet c6Params "password" = none ∧
    buildConnectionString c6Params = Except.ok "mongodb://localhost:27017/d" :=
  ⟨rfl, rfl, rfl⟩

/-- C6 (amended): the `user:password@` segment is emitted only when both
user and password are truthy; a configuration in which exactly one of
the two is present does not fail -- construction succeeds and the
resulting string is the plain `mongodb://host:port/database` form with
the segment omitted. -/
theorem buildConnectionString_auth_amended (params : JsObj)
    (h : (truthy (jsGet params "user") = true ∧ truthy (jsGet params "password") = false) ∨
         (truthy (jsGet params "user") = false ∧ truthy (jsGet params "password") = true)) :
    buildConnectionString params = Except.ok ("mongodb://" ++ hostPortDatabase params) := by
  rcases h with ⟨h1, h2⟩ | ⟨h1, h2⟩ <;> simp [buildConnectionString, h1, h2]

/-- C6 (witness): the amended construction evaluated on the concrete
user-only params `c6Params`. -/
theorem buildConnectionString_auth_amended_witness :
    truthy (jsGet c6Params "user") = true ∧ truthy (jsGet c6Params "password") = false ∧
    buildConnectionString c6Params = Except.ok ("mongodb://" ++ hostPortDatabase c6Params) :=
  ⟨rfl, rfl, buildConnectionString_auth_amended c6Params (Or.inl ⟨rfl, rfl⟩)⟩

/-! ### Claim C7 -/

/-- C7 (counterexample): a registration whose config sets user and
password but simply omits the database succeeds end to end with a
succeeding driver -- the built-in default database `sails` fills the gap
during the defaults merge -- so the claim that every such registration
fails synchronously before any connect call is false as stated. -/
theorem missing_database_registration_counterexample :
    jsGet c7Config "database" = none ∧
    truthy (jsGet c7Config "user") = true ∧
    truthy (jsGet c7Config "password") = true ∧
    (registerConnection okConnect [] c7Config []).2 = RegResult.ok :=
  ⟨rfl, rfl, rfl, rfl⟩

/-- C7 (amended): when the merged configuration (after the adapter
defaults) has truthy user and password, a falsy database -- which, given
the built-in default database `sails`, requires the config to set the
database explicitly to a falsy value -- and a falsy url, the registration
throws the database-required configuration error synchronously, for every
driver, before any connect call can be issued (only the partial registry
entry insertion has happened). -/
theorem registerConnection_database_required_amended
    (connect : String → ConnOptions → Except String (Option Nat))
    (st : Registry) (config : JsObj) (colls : List (String × CollectionSpec))
    (hid : truthy (jsGet config "identity") = true)
    (hfresh : assocGet st (jsCoerceStr (jsGet config "identity")) = none)
    (hu : truthy (jsGet (lodashDefaultsAdd config adapterDefaults) "user") = true)
    (hp : truthy (jsGet (lodashDefaultsAdd config adapterDefaults) "password") = true)
    (hd : truthy (jsGet (lodashDefaultsAdd config adapterDefaults) "database") = false)
    (hurl : truthy (jsGet (lodashDefaultsAdd config adapterDefaults) "url") = false) :
    registerConnection connect st config colls =
      (st ++ [(jsCoerceStr (jsGet config "identity"),
               ⟨lodashDefaultsAdd config adapterDefaults, [], none⟩)],
       RegResult.thrown databaseRequiredMsg) := by
  have herr := buildConnectionPlan_database_error _ hurl hu hp hd
  unfold registerConnection
  simp [hid, hfresh, herr]

/-- C7 (witness): the amended failure evaluated on the concrete config
`c7NullDbConfig`, which nullifies the database explicitly. -/
theorem registerConnection_database_required_amended_witness :
    truthy (jsGet c7NullDbConfig "identity") = true ∧
    truthy (jsGet (lodashDefaultsAdd c7NullDbConfig adapterDefaults) "user") = true ∧
    truthy (jsGet (lodashDefaultsAdd c7NullDbConfig adapterDefaults) "password") = true ∧
    truthy (jsGet (lodashDefaultsAdd c7NullDbConfig adapterDefaults) "database") = false ∧
    registerConnection okConnect [] c7NullDbConfig [] =
      ([("c", ⟨lodashDefaultsAdd c7NullDbConfig adapterDefaults, [], none⟩)],
       RegResult.thrown databaseRequiredMsg) :=
  ⟨rfl, rfl, rfl, rfl,
    registerConnection_database_required_amended okConnect [] c7NullDbConfig []
      rfl rfl rfl rfl rfl rfl⟩

/-! ### Claim C8 -/

/-- C8: `drop` on a registered, non-read-only connection treats a store
failure whose `errmsg` is `ns not found` (in particular, dropping an
absent collection) as success, and passes any other store failure to the
callback unchanged. -/
theorem drop_tolerates_ns_not_found
    (st : AdapterState) (cn coln : String) (co : ConnEntry) (conn : ConnObj)
    (hco : assocGet st.connections cn = some co)
    (hconn : co.connection = some conn)
    (hro : connReadOnly conn = false) :
    (st.store.dropFault = none → storeHasCollection st.store coln = false →
      drop st cn coln = (st, CbOut.ok none)) ∧
    (∀ e : MErr, st.store.dropFault = some e → e.errmsg = "ns not found" →
      drop st cn coln = (st, CbOut.ok none)) ∧
    (∀ e : MErr, st.store.dropFault = some e → ¬(e.errmsg = "ns not found") →
      drop st cn coln = (st, CbOut.err e)) := by
  refine ⟨?_, ?_, ?_⟩
  · intro hf habs
    have hnone : assocGet st.store.colls coln = none := by
      cases hx : assocGet st.store.colls coln with
      | none => rfl
      | some w => simp [storeHasCollection, hx] at habs
    simp [drop, hco, hconn, hro, storeDropCollection, hf, hnone]
  · intro e hf he
    simp [drop, hco, hconn, hro, storeDropCollection, hf, he]
  · intro e hf he
    simp [drop, hco, hconn, hro, storeDropCollection, hf, he]

/-- C8 (witness): `drop` evaluated on concrete states -- one with an
injected non-`ns not found` store failure (passed through unchanged) and
one dropping an absent collection (answered as success). -/
theorem drop_tolerates_ns_not_found_witness :
    assocGet c8FaultState.connections "rw" = some c8Entry ∧
    c8Entry.connection = some c8Conn ∧
    connReadOnly c8Conn = false ∧
    c8FaultState.store.dropFault = some ⟨"boom"⟩ ∧
    drop c8FaultState "rw" "users" = (c8FaultState, CbOut.err ⟨"boom"⟩) ∧
    c8AbsentState.store.dropFault = none ∧
    storeHasCollection c8AbsentState.store "users" = false ∧
    drop c8AbsentState "rw" "users" = (c8AbsentState, CbOut.ok none) :=
  ⟨rfl, rfl, rfl, rfl,
    (drop_tolerates_ns_not_found c8FaultState "rw" "users" c8Entry c8Conn rfl rfl rfl).2.2
      ⟨"boom"⟩ rfl (by decide),
    rfl, rfl,
    (drop_tolerates_ns_not_found c8AbsentState "rw" "users" c8Entry c8Conn rfl rfl rfl).1
      rfl rfl⟩

/-! ### Claim C9 -/

/-- C9 (counterexample): the empty collection identity is not registered
under connection `c`, yet `$getPK` neither throws nor returns a field
name for it -- the falsy-identity guard silently returns `undefined`, a
default-like value, so the claim that every unregistered identity fails
is false as stated. -/
theorem getPK_empty_identity_counterexample :
    assocGet c9Entry.collections "" = none ∧
    joinGetPK c9Reg "c" "" = GetPKOut.undef :=
  ⟨rfl, rfl⟩

/-- C9 (amended): for every nonempty collection identity, `$getPK`
throws a consistency-violation `Error` when the connection or the named
collection is not registered, and returns the collection's primary-key
field name when it is; an empty (falsy) identity instead silently
returns `undefined`. -/
theorem getPK_unknown_identity_amended (reg : Registry) (cn ci : String)
    (hci : ¬(ci = "")) :
    (assocGet reg cn = none →
      joinGetPK reg cn ci = GetPKOut.thrownErr
        ("Consistency violation in sails-mongo: Unrecognized datastore (i.e. connection): `" ++
          cn ++ "`.")) ∧
    (∀ co, assocGet reg cn = some co → assocGet co.collections ci = none →
      joinGetPK reg cn ci = GetPKOut.thrownErr
        ("Consistency violation in sails-mongo: Unrecognized collection: `" ++ ci ++
          "` in datastore (i.e. connection): `" ++ cn ++ "`.")) ∧
    (∀ co coll, assocGet reg cn = some co → assocGet co.collections ci = some coll →
      joinGetPK reg cn ci = GetPKOut.ret coll.pkField) := by
  refine ⟨?_, ?_, ?_⟩ <;> intros <;> simp [joinGetPK, hci, *]

/-- C9 (witness): `$getPK` evaluated on the concrete registry `c9Reg`
for a registered and an unregistered nonempty identity. -/
theorem getPK_unknown_identity_amended_witness :
    ¬("users" = "") ∧ ¬("posts" = "") ∧
    joinGetPK c9Reg "c" "users" = GetPKOut.ret "id" ∧
    joinGetPK c9Reg "c" "posts" = GetPKOut.thrownErr
      ("Consistency violation in sails-mongo: Unrecognized collection: `" ++ "posts" ++
        "` in datastore (i.e. connection): `" ++ "c" ++ "`.") := by
  have h := getPK_unknown_identity_amended c9Reg "c" "users" (by decide)
  have h2 := getPK_unknown_identity_amended c9Reg "c" "posts" (by decide)
  exact ⟨by decide, by decide, h.2.2 c9Entry c9Coll rfl rfl, h2.2.1 c9Entry rfl rfl⟩

/-! ### Claim C10 -/

/-- C10: `mongo.objectId` never lets an exception escape: for every
constructor behaviour and input it returns normally, answering `null` for
a falsy input or a throwing construction and the constructed value
otherwise. -/
theorem objectId_never_throws (ctor : JsVal → Except String String) (id : Option JsVal) :
    (∃ r, objectId ctor id = Except.ok r) ∧
    (truthy id = false → objectId ctor id = Except.ok none) ∧
    (∀ v, id = some v → truthy id = true → objectId ctor id = Except.ok (ctor v).toOption) := by
  refine ⟨?_, ?_, ?_⟩
  · cases id with
    | none => exact ⟨none, rfl⟩
    | some v =>
      by_cases h : truthy (some v) = false
      · exact ⟨none, by simp [objectId, h]⟩
      · have h' : truthy (some v) = true := by simpa using h
        cases hc : ctor v with
        | ok o => exact ⟨some o, by simp [objectId, h', hc]⟩
        | error e => exact ⟨none, by simp [objectId, h', hc]⟩
  · intro h
    simp [objectId, h]
  · intro v hv ht
    subst hv
    cases hc : ctor v with
    | ok o => simp [objectId, ht, hc, Except.toOption]
    | error e => simp [objectId, ht, hc, Except.toOption]

/-- C10 (witness): `objectId` evaluated with the sample constructor on a
falsy input and on a truthy input the constructor rejects. -/
theorem objectId_never_throws_witness :
    objectId sampleObjectIdCtor none = Except.ok none ∧
    truthy (some (vStr "abc")) = true ∧
    objectId sampleObjectIdCtor (some (vStr "abc")) =
      Except.ok (sampleObjectIdCtor (vStr "abc")).toOption := by
  have h1 := objectId_never_throws sampleObjectIdCtor none
  have h2 := objectId_never_throws sampleObjectIdCtor (some (vStr "abc"))
  exact ⟨h1.2.1 rfl, rfl, h2.2.2 (vStr "abc") rfl rfl⟩

end SailsMongo
